import Mathlib

/-!
Verification development for the Zaradam decision-assistance application.

The repository ships the React frontend (`frontend/src/App.js`); the FastAPI
backend (`backend/server.py`, referenced by `test_result.md`) is not part of
the source tree, so the backend operations are modelled from the written
specification, while the frontend behaviour is embedded directly from
`App.js`.
-/

namespace Zaradam

/-! ## Frontend embedding (from `frontend/src/App.js`) -/

/-- JavaScript's `String.prototype.trim()`: strip leading and trailing
whitespace. Embedded structurally over the character list so that it
evaluates on concrete inputs. -/
def jsTrim (s : String) : String :=
  String.mk
    (((s.data.dropWhile Char.isWhitespace).reverse.dropWhile
        Char.isWhitespace).reverse)

/-- The set of privacy levels the UI offers (`App.js` privacy selector:
"public", "followers", "private"). -/
def validPrivacyLevel (s : String) : Bool :=
  s = "public" || s = "followers" || s = "private"

/-- `HomePage` initial privacy state: `useState("public")` (`App.js:1335`). -/
def initialPrivacyLevel : String := "public"

/-- Payload of `POST /decisions/create` sent by the current `HomePage`
(`App.js:1355-1361`). -/
structure CreateRequest where
  text : String
  privacy_level : String
deriving Repr, DecidableEq

/-- Payload of `POST /decisions/create` sent by the legacy `HomePage`
(`App.js:3472-3478`), which carries the boolean `is_public` instead of
`privacy_level`. -/
structure LegacyCreateRequest where
  text : String
  is_public : Bool
deriving Repr, DecidableEq

/-- `handleSubmit` of the current `HomePage` (`App.js:1351-1376`): the API
call is issued only when `decisionText.trim()` is truthy, i.e. the trimmed
text is non-empty; `none` models "no request sent". -/
def handleSubmitRequest (decisionText : String) (privacyLevel : String) :
    Option CreateRequest :=
  if jsTrim decisionText ≠ "" then
    some { text := decisionText, privacy_level := privacyLevel }
  else
    none

/-- `handleSubmit` of the legacy `HomePage` (`App.js:3468-3487`): same
truthiness guard, and the payload unconditionally carries `is_public: true`. -/
def legacyHandleSubmitRequest (decisionText : String) :
    Option LegacyCreateRequest :=
  if jsTrim decisionText ≠ "" then
    some { text := decisionText, is_public := true }
  else
    none

/-- The submit button's `disabled` attribute on `HomePage`
(`App.js:1538`): `!decisionText.trim() || loading`. -/
def submitButtonDisabled (decisionText : String) (loading : Bool) : Bool :=
  jsTrim decisionText = "" || loading

/-- `HistoryPage` effective privacy classification (`App.js:1897`):
`decision.privacy_level || (decision.is_public ? "public" : "private")`.
A JavaScript `||` falls through on any falsy value, so an absent field
(`none`) and the empty string both fall back to the legacy boolean. -/
def effectivePrivacyLevel (privacy_level : Option String) (is_public : Bool) :
    String :=
  match privacy_level with
  | some s => if s = "" then (if is_public then "public" else "private") else s
  | none => if is_public then "public" else "private"

/-- One tick of the dice animation (`rollDice`, `App.js:1621`):
`Math.floor(Math.random() * 4) + 1` where `Math.random()` lies in `[0, 1)`.
The computation does not consult the decision's alternatives at all. -/
def animationDiceNumber (r : ℚ) : ℤ :=
  ⌊r * 4⌋ + 1

/-! ## Backend model

The backend (`backend/server.py`) is absent from the source tree; the
following definitions are modelled from the specification's §3-§5
(Decision Record Store, Resolution Engine, Quota Ledger, Generator
Adapter, Lifecycle Controller). -/

/-- Modelled from the spec: `resolution_state` of a decision
({unresolved, resolved}), stored by the missing backend `server.py`. -/
inductive ResolutionState where
  | unresolved
  | resolved
deriving Repr, DecidableEq

/-- Modelled from the spec: the persisted Decision record (§3) of the
missing backend `server.py`. `selected_index` is `none` until resolved;
`implemented` is the tri-state outcome annotation. -/
structure Decision where
  owner_id : Nat
  text : String
  alternatives : List String
  privacy_level : String
  resolution_state : ResolutionState
  selected_index : Option Nat
  implemented : Option Bool
deriving Repr, DecidableEq

/-- Modelled from the spec: `create` of the Decision Record Store (§4.3) in
the missing backend `server.py` — a fresh record starts unresolved with no
selected index and no outcome annotation. -/
def createDecision (ownerId : Nat) (text : String) (pl : String)
    (alts : List String) : Decision :=
  { owner_id := ownerId
    text := text
    alternatives := alts
    privacy_level := pl
    resolution_state := .unresolved
    selected_index := none
    implemented := none }

/-- Modelled from the spec: error variants of `resolve` (§4.4, §6) in the
missing backend `server.py`. -/
inductive ResolveError where
  | Forbidden
  | AlreadyResolved
deriving Repr, DecidableEq

/-- Modelled from the spec: the response of a successful `resolve` — the
updated record, the selected index, the selected alternative's text
(`selected_option`), and the 1-based `dice_result` shown by the client. -/
structure ResolveResult where
  decision : Decision
  selected_index : Nat
  selected_option : String
  dice_result : Nat
deriving Repr, DecidableEq

/-- Modelled from the spec: `resolve` of the Resolution Engine (§4.4) in the
missing backend `server.py`. Ownership is checked first (`Forbidden`), then
the state (`AlreadyResolved`); an unresolved decision draws an index in
`[0, alternatives.length)` from the uniform draw `roll` and atomically
records it while flipping the state to resolved. -/
def resolveDecision (roll : Nat) (requesterId : Nat) (d : Decision) :
    Except ResolveError ResolveResult :=
  if requesterId ≠ d.owner_id then
    .error .Forbidden
  else
    match d.resolution_state with
    | .resolved => .error .AlreadyResolved
    | .unresolved =>
      let idx := roll % d.alternatives.length
      .ok { decision := { d with resolution_state := .resolved,
                                 selected_index := some idx }
            selected_index := idx
            selected_option := d.alternatives.getD idx ""
            dice_result := idx + 1 }

/-- Modelled from the spec: error variants of `annotateOutcome` (§4.5) in
the missing backend `server.py`. -/
inductive AnnotateError where
  | Forbidden
  | NotYetResolved
deriving Repr, DecidableEq

/-- Modelled from the spec: `annotateOutcome` (§4.5) in the missing backend
`server.py` — ownership check, then `NotYetResolved` unless the decision is
resolved, else record the `implemented` flag. -/
def annotateOutcome (requesterId : Nat) (impl : Bool) (d : Decision) :
    Except AnnotateError Decision :=
  if requesterId ≠ d.owner_id then
    .error .Forbidden
  else
    match d.resolution_state with
    | .unresolved => .error .NotYetResolved
    | .resolved => .ok { d with implemented := some impl }

/-- An operation applied to a stored decision after its creation. -/
inductive DecisionOp where
  | resolve (roll requesterId : Nat)
  | annotate (requesterId : Nat) (impl : Bool)
deriving Repr, DecidableEq

/-- Apply one operation to the stored record: a failed operation leaves the
stored record unchanged (the store rejects the update). -/
def applyOp (d : Decision) (op : DecisionOp) : Decision :=
  match op with
  | .resolve roll req =>
    match resolveDecision roll req d with
    | .ok res => res.decision
    | .error _ => d
  | .annotate req impl =>
    match annotateOutcome req impl d with
    | .ok d2 => d2
    | .error _ => d

/-- The §3 invariant: `selected_index` is non-null iff
`resolution_state = resolved`. -/
def selectedIffResolved (d : Decision) : Prop :=
  d.selected_index.isSome = true ↔ d.resolution_state = .resolved

instance (d : Decision) : Decidable (selectedIffResolved d) := by
  unfold selectedIffResolved
  infer_instance

/-! ## Quota Ledger (modelled from spec §4.1) -/

/-- Modelled from the spec: the free tier's daily AI-generation limit
enforced by the missing backend `server.py` (§4.1, `daily_limit = 3`). -/
def daily_limit : Nat := 3

/-- Modelled from the spec: per-user QuotaState (§3) in the missing backend
`server.py` — the daily counter, the calendar day it applies to, and the
premium flag supplied by the auth collaborator. -/
structure QuotaState where
  queries_used_today : Nat
  quota_date : Nat
  is_premium : Bool
deriving Repr, DecidableEq

/-- Modelled from the spec: result of `checkAndConsume` (§4.1); `remaining`
is `none` for the premium "unbounded" case and `some n` otherwise. -/
structure QuotaResult where
  allowed : Bool
  remaining : Option Nat
deriving Repr, DecidableEq

/-- Modelled from the spec: lazy date rollover (§3) in the missing backend
`server.py` — a record whose `quota_date` is not today is reset first. -/
def rolloverQuota (today : Nat) (q : QuotaState) : QuotaState :=
  if q.quota_date ≠ today then
    { q with queries_used_today := 0, quota_date := today }
  else
    q

/-- Modelled from the spec: `checkAndConsume` of the Quota Ledger (§4.1) in
the missing backend `server.py`. Rollover first; premium users pass without
touching the counter; a free user under the limit consumes one unit and
learns the post-increment remainder; at or over the limit the call is
refused and the counter is untouched. -/
def checkAndConsume (today : Nat) (q : QuotaState) :
    QuotaResult × QuotaState :=
  let q1 := rolloverQuota today q
  if q1.is_premium then
    ({ allowed := true, remaining := none }, q1)
  else if q1.queries_used_today < daily_limit then
    let q2 := { q1 with queries_used_today := q1.queries_used_today + 1 }
    ({ allowed := true,
       remaining := some (daily_limit - q2.queries_used_today) }, q2)
  else
    ({ allowed := false, remaining := some 0 }, q1)

/-! ## Generator Adapter and Lifecycle Controller (modelled from spec §4.2, §4.5) -/

/-- Modelled from the spec: the fixed fallback list of 4 generic
alternatives (§4.2) returned by the missing backend `server.py` when the
external AI provider fails. -/
def fallbackAlternatives : List String :=
  ["Evet, dene", "Hayir, vazgec", "Biraz daha dusun", "Birine danis"]

/-- Modelled from the spec: the §4.2 contract on a generated list —
between 2 and 6 non-empty strings. -/
def wellFormedAlternatives (alts : List String) : Bool :=
  2 ≤ alts.length && alts.length ≤ 6 && alts.all (fun s => jsTrim s ≠ "")

/-- Modelled from the spec: the Generator Adapter (§4.2) of the missing
backend `server.py`, with the external provider abstracted as a function
returning `none` on any failure (throw, timeout, empty completion). A
failing or malformed provider answer is replaced by the fallback list; the
adapter itself never fails once the input text is validated. -/
def generateAlternatives (provider : String → Option (List String))
    (text : String) : List String :=
  match provider text with
  | none => fallbackAlternatives
  | some alts =>
    if wellFormedAlternatives alts then alts else fallbackAlternatives

/-- Modelled from the spec: error variants of `create` (§4.5, §6) in the
missing backend `server.py`. -/
inductive CreateError where
  | InvalidInput
  | QuotaExceeded (remaining : Nat)
deriving Repr, DecidableEq

/-- Modelled from the spec: outcome of a successful `create` — the new
persisted decision and the updated quota state. -/
structure CreateOutcome where
  decision : Decision
  quota : QuotaState
deriving Repr, DecidableEq

/-- Modelled from the spec: `create` of the Lifecycle Controller (§4.5) in
the missing backend `server.py` — validate text and privacy level, consult
the Quota Ledger, then call the Generator Adapter and persist. -/
def controllerCreate (provider : String → Option (List String))
    (today : Nat) (q : QuotaState) (ownerId : Nat) (text : String)
    (pl : String) : Except CreateError CreateOutcome :=
  if jsTrim text = "" then
    .error .InvalidInput
  else if validPrivacyLevel pl = false then
    .error .InvalidInput
  else
    let rq := checkAndConsume today q
    if rq.1.allowed then
      .ok { decision :=
              createDecision ownerId text pl (generateAlternatives provider text)
            quota := rq.2 }
    else
      .error (.QuotaExceeded 0)

/-! ## Direct messaging (modelled from spec §1, §2) -/

/-- Modelled from the spec: the follow relation stored by the missing
backend `server.py` (`follows` collection: pairs
`(follower_id, following_id)`). -/
def isFollowing (follows : List (Nat × Nat)) (a b : Nat) : Bool :=
  follows.contains (a, b)

/-- Modelled from the spec: mutual follow — each of the two users follows
the other. -/
def mutualFollow (follows : List (Nat × Nat)) (a b : Nat) : Bool :=
  isFollowing follows a b && isFollowing follows b a

/-- Modelled from the spec: error variant of `messages/send` in the missing
backend `server.py`. -/
inductive MessageError where
  | Forbidden
deriving Repr, DecidableEq

/-- A stored direct message. -/
structure Message where
  sender_id : Nat
  recipient_id : Nat
  content : String
deriving Repr, DecidableEq

/-- Modelled from the spec: `messages/send` of the missing backend
`server.py` — "a direct-messaging system restricted to mutual-follow
relationships": the message is stored only when sender and recipient follow
each other. -/
def sendDirectMessage (follows : List (Nat × Nat)) (sender recipient : Nat)
    (content : String) : Except MessageError Message :=
  if mutualFollow follows sender recipient then
    .ok { sender_id := sender, recipient_id := recipient, content := content }
  else
    .error .Forbidden

/-! ## Theorems -/

theorem applyOp_preserves_selectedIffResolved (d : Decision) (op : DecisionOp)
    (h : selectedIffResolved d) : selectedIffResolved (applyOp d op) := by
  unfold selectedIffResolved at h ⊢
  cases op with
  | resolve roll req =>
    by_cases hreq : req = d.owner_id
    · cases hstate : d.resolution_state with
      | resolved => simpa [applyOp, resolveDecision, hreq, hstate] using h
      | unresolved => simp [applyOp, resolveDecision, hreq, hstate]
    · simpa [applyOp, resolveDecision, hreq] using h
  | annotate req impl =>
    by_cases hreq : req = d.owner_id
    · cases hstate : d.resolution_state with
      | resolved => simpa [applyOp, annotateOutcome, hreq, hstate] using h
      | unresolved => simpa [applyOp, annotateOutcome, hreq, hstate] using h
    · simpa [applyOp, annotateOutcome, hreq] using h

theorem foldl_applyOp_preserves_selectedIffResolved (ops : List DecisionOp)
    (d : Decision) (h : selectedIffResolved d) :
    selectedIffResolved (ops.foldl applyOp d) := by
  induction ops generalizing d with
  | nil => exact h
  | cons op ops ih =>
    exact ih (applyOp d op) (applyOp_preserves_selectedIffResolved d op h)

/-- C2: for every decision, after every sequence of create/resolve/annotate
operations, `selected_index` is non-null if and only if
`resolution_state = resolved`. -/
theorem selected_index_iff_resolved
    (ownerId : Nat) (text pl : String) (alts : List String)
    (ops : List DecisionOp) :
    selectedIffResolved (ops.foldl applyOp (createDecision ownerId text pl alts)) := by
  apply foldl_applyOp_preserves_selectedIffResolved
  simp [selectedIffResolved, createDecision]

/-- C1: resolution happens exactly once per decision — on an already
resolved decision every further owner `resolve` call fails with
`AlreadyResolved` and leaves the stored record (in particular its
`selected_index`) unchanged; on a fresh decision two successive resolve
attempts yield exactly one success, and the failing second attempt leaves
the stored record unchanged. -/
theorem resolve_exactly_once
    (d : Decision) (roll : Nat)
    (hres : d.resolution_state = .resolved) :
    (resolveDecision roll d.owner_id d = .error .AlreadyResolved ∧
      applyOp d (.resolve roll d.owner_id) = d) ∧
    (∀ (ownerId : Nat) (text pl : String) (alts : List String) (r1 r2 : Nat),
      ∃ res : ResolveResult,
        resolveDecision r1 ownerId (createDecision ownerId text pl alts)
          = .ok res ∧
        res.decision.resolution_state = .resolved ∧
        resolveDecision r2 ownerId res.decision = .error .AlreadyResolved ∧
        applyOp res.decision (.resolve r2 ownerId) = res.decision) := by
  constructor
  · constructor
    · simp [resolveDecision, hres]
    · simp [applyOp, resolveDecision, hres]
  · intro ownerId text pl alts r1 r2
    refine ⟨{ decision := { owner_id := ownerId, text := text,
                            alternatives := alts, privacy_level := pl,
                            resolution_state := .resolved,
                            selected_index := some (r1 % alts.length),
                            implemented := none },
              selected_index := r1 % alts.length,
              selected_option := alts.getD (r1 % alts.length) "",
              dice_result := r1 % alts.length + 1 }, ?_, rfl, ?_, ?_⟩
    · simp [resolveDecision, createDecision]
    · simp [resolveDecision]
    · simp [applyOp, resolveDecision]

/-- Witness for C1 at a concrete already-resolved decision. -/
theorem resolve_exactly_once_witness :
    (resolveDecision 5 0
        { owner_id := 0, text := "t", alternatives := ["a", "b"],
          privacy_level := "public", resolution_state := .resolved,
          selected_index := some 1, implemented := none }
      = .error .AlreadyResolved ∧
      applyOp
        { owner_id := 0, text := "t", alternatives := ["a", "b"],
          privacy_level := "public", resolution_state := .resolved,
          selected_index := some 1, implemented := none }
        (.resolve 5 0)
      = { owner_id := 0, text := "t", alternatives := ["a", "b"],
          privacy_level := "public", resolution_state := .resolved,
          selected_index := some 1, implemented := none }) ∧
    (∀ (ownerId : Nat) (text pl : String) (alts : List String) (r1 r2 : Nat),
      ∃ res : ResolveResult,
        resolveDecision r1 ownerId (createDecision ownerId text pl alts)
          = .ok res ∧
        res.decision.resolution_state = .resolved ∧
        resolveDecision r2 ownerId res.decision = .error .AlreadyResolved ∧
        applyOp res.decision (.resolve r2 ownerId) = res.decision) :=
  resolve_exactly_once
    { owner_id := 0, text := "t", alternatives := ["a", "b"],
      privacy_level := "public", resolution_state := .resolved,
      selected_index := some 1, implemented := none }
    5 rfl

/-- C3: whenever `resolve` succeeds on a decision with at least one
alternative, the selected index is a valid index into the alternatives, the
returned `selected_option` is the alternative stored at that index, the
`dice_result` sent to the client is the 1-based position of the selected
alternative, and the stored record carries the same index. -/
theorem resolve_selects_valid_index
    (roll req : Nat) (d : Decision) (res : ResolveResult)
    (hlen : 1 ≤ d.alternatives.length)
    (h : resolveDecision roll req d = .ok res) :
    res.selected_index < d.alternatives.length ∧
    d.alternatives[res.selected_index]? = some res.selected_option ∧
    res.dice_result = res.selected_index + 1 ∧
    res.decision.selected_index = some res.selected_index := by
  unfold resolveDecision at h
  split at h
  · exact absurd h (by simp)
  · split at h
    · exact absurd h (by simp)
    · rw [Except.ok.injEq] at h
      subst h
      have hlt : roll % d.alternatives.length < d.alternatives.length :=
        Nat.mod_lt _ (Nat.lt_of_lt_of_le Nat.zero_lt_one hlen)
      refine ⟨hlt, ?_, rfl, rfl⟩
      simp [List.getD_eq_getElem?_getD, List.getElem?_eq_getElem hlt]

/-- Witness for C3 at a concrete two-alternative decision. -/
theorem resolve_selects_valid_index_witness :
    ∃ res : ResolveResult,
      resolveDecision 3 9 (createDecision 9 "t" "public" ["a", "b"]) = .ok res ∧
      res.selected_index < (createDecision 9 "t" "public" ["a", "b"]).alternatives.length ∧
      (createDecision 9 "t" "public" ["a", "b"]).alternatives[res.selected_index]?
        = some res.selected_option ∧
      res.dice_result = res.selected_index + 1 ∧
      res.decision.selected_index = some res.selected_index := by
  refine ⟨_, rfl, resolve_selects_valid_index 3 9
    (createDecision 9 "t" "public" ["a", "b"]) _ (by decide) rfl⟩

/-- C4: for a non-premium user with a current-day quota record,
`checkAndConsume` increments the counter by exactly one and reports
`allowed = true` with the post-increment remainder while the counter is
below `daily_limit = 3`; at or above the limit it reports `allowed = false`
with `remaining = 0` and leaves the state unchanged, so a counter at most
`daily_limit` never exceeds it. -/
theorem checkAndConsume_free_user
    (today : Nat) (q : QuotaState)
    (hprem : q.is_premium = false) (hdate : q.quota_date = today) :
    (q.queries_used_today < daily_limit →
      (checkAndConsume today q).1.allowed = true ∧
      (checkAndConsume today q).2.queries_used_today
        = q.queries_used_today + 1 ∧
      (checkAndConsume today q).1.remaining
        = some (daily_limit - (q.queries_used_today + 1))) ∧
    (daily_limit ≤ q.queries_used_today →
      (checkAndConsume today q).1.allowed = false ∧
      (checkAndConsume today q).1.remaining = some 0 ∧
      (checkAndConsume today q).2 = q) ∧
    (q.queries_used_today ≤ daily_limit →
      (checkAndConsume today q).2.queries_used_today ≤ daily_limit) := by
  have hroll : rolloverQuota today q = q := by
    simp [rolloverQuota, hdate]
  refine ⟨?_, ?_, ?_⟩
  · intro hlt
    simp [checkAndConsume, hroll, hprem, hlt]
  · intro hge
    simp [checkAndConsume, hroll, hprem, Nat.not_lt.mpr hge]
  · intro hle
    rcases Nat.lt_or_ge q.queries_used_today daily_limit with hlt | hge
    · simp [checkAndConsume, hroll, hprem, hlt]
      omega
    · simp [checkAndConsume, hroll, hprem, Nat.not_lt.mpr hge, hle]

/-- Witness for C4 at a concrete free-tier quota state with two queries
used today. -/
theorem checkAndConsume_free_user_witness :
    (checkAndConsume 7 ⟨2, 7, false⟩).1.allowed = true ∧
    (checkAndConsume 7 ⟨2, 7, false⟩).2.queries_used_today = 3 ∧
    (checkAndConsume 7 ⟨2, 7, false⟩).1.remaining = some 0 ∧
    (checkAndConsume 7 ⟨2, 7, false⟩).2.queries_used_today ≤ daily_limit := by
  have h := checkAndConsume_free_user 7 ⟨2, 7, false⟩ rfl rfl
  have h1 := h.1 (by decide)
  have h3 := h.2.2 (by decide)
  exact ⟨h1.1, h1.2.1, h1.2.2, h3⟩

/-- C5: when the external AI provider fails on the given text, a `create`
call whose input is valid and whose quota check passes still succeeds, and
the created decision carries exactly the fixed 4-element fallback list —
provider failure is never propagated to the caller. -/
theorem create_survives_provider_failure
    (provider : String → Option (List String)) (today : Nat) (q : QuotaState)
    (ownerId : Nat) (text pl : String)
    (hfail : provider text = none)
    (htext : jsTrim text ≠ "")
    (hpl : validPrivacyLevel pl = true)
    (hallowed : (checkAndConsume today q).1.allowed = true) :
    ∃ out : CreateOutcome,
      controllerCreate provider today q ownerId text pl = .ok out ∧
      out.decision.alternatives = fallbackAlternatives ∧
      out.decision.alternatives.length = 4 := by
  refine ⟨{ decision := createDecision ownerId text pl fallbackAlternatives
            quota := (checkAndConsume today q).2 }, ?_, rfl, rfl⟩
  simp [controllerCreate, htext, hpl, hallowed, generateAlternatives, hfail]

/-- Witness for C5: a stub provider that always fails, a fresh free user,
and the spec's example input. -/
theorem create_survives_provider_failure_witness :
    ∃ out : CreateOutcome,
      controllerCreate (fun _ => none) 0 ⟨0, 0, false⟩ 7
          "Should I go hiking?" "public" = .ok out ∧
      out.decision.alternatives = fallbackAlternatives ∧
      out.decision.alternatives.length = 4 :=
  create_survives_provider_failure (fun _ => none) 0 ⟨0, 0, false⟩ 7
    "Should I go hiking?" "public" rfl (by decide) (by decide) (by decide)

/-- C6: the effective privacy classification computed by `HistoryPage` is a
single value of the closed set {public, followers, private}: a record
carrying a (valid) `privacy_level` keeps that value, and a legacy record
carrying only `is_public` maps `true` to public and `false` to private. -/
theorem effective_privacy_closed
    (privacy_level : Option String) (is_public : Bool)
    (hvalid : ∀ s, privacy_level = some s → validPrivacyLevel s = true) :
    validPrivacyLevel (effectivePrivacyLevel privacy_level is_public) = true ∧
    (∀ s, privacy_level = some s →
      effectivePrivacyLevel privacy_level is_public = s) ∧
    (privacy_level = none →
      effectivePrivacyLevel privacy_level is_public
        = if is_public then "public" else "private") := by
  cases privacy_level with
  | none =>
    refine ⟨?_, by simp, fun _ => rfl⟩
    cases is_public <;> simp [effectivePrivacyLevel, validPrivacyLevel]
  | some s =>
    have hs := hvalid s rfl
    simp only [validPrivacyLevel, Bool.or_eq_true, decide_eq_true_eq] at hs
    rcases hs with (h | h) | h <;> subst h <;>
      exact ⟨by simp [effectivePrivacyLevel, validPrivacyLevel],
             by simp [effectivePrivacyLevel], by simp⟩

/-- Witness for C6 at a record carrying `privacy_level = "followers"` and a
legacy-only record with `is_public = false`. -/
theorem effective_privacy_closed_witness :
    (validPrivacyLevel (effectivePrivacyLevel (some "followers") false) = true ∧
      effectivePrivacyLevel (some "followers") false = "followers") ∧
    effectivePrivacyLevel none false = "private" := by
  have h := effective_privacy_closed (some "followers") false
    (by intro s hs; cases hs; decide)
  have h2 := effective_privacy_closed none false (by intro s hs; cases hs)
  exact ⟨⟨h.1, h.2.1 "followers" rfl⟩, by simpa using h2.2.2 rfl⟩

/-- C7: direct messaging is restricted to mutual-follow relationships —
sending succeeds exactly when each user follows the other, and a one-way
(or absent) follow makes the send fail. -/
theorem direct_message_requires_mutual_follow
    (follows : List (Nat × Nat)) (sender recipient : Nat) (content : String) :
    ((∃ m, sendDirectMessage follows sender recipient content = .ok m) ↔
      mutualFollow follows sender recipient = true) ∧
    (isFollowing follows sender recipient = true →
      isFollowing follows recipient sender = false →
      sendDirectMessage follows sender recipient content
        = .error .Forbidden) ∧
    (isFollowing follows sender recipient = false →
      sendDirectMessage follows sender recipient content
        = .error .Forbidden) := by
  refine ⟨⟨?_, ?_⟩, ?_, ?_⟩
  · rintro ⟨m, hm⟩
    by_cases h : mutualFollow follows sender recipient = true
    · exact h
    · simp [sendDirectMessage, h] at hm
  · intro h
    exact ⟨{ sender_id := sender, recipient_id := recipient,
             content := content }, by simp [sendDirectMessage, h]⟩
  · intro h1 h2
    simp [sendDirectMessage, mutualFollow, h1, h2]
  · intro h1
    simp [sendDirectMessage, mutualFollow, h1]

/-- Witness for C7: with only the one-way follow (1,2) stored, user 1
cannot message user 2; with the mutual pair stored, the send succeeds. -/
theorem direct_message_requires_mutual_follow_witness :
    sendDirectMessage [(1, 2)] 1 2 "hi" = .error .Forbidden ∧
    (∃ m, sendDirectMessage [(1, 2), (2, 1)] 1 2 "hi" = .ok m) :=
  ⟨(direct_message_requires_mutual_follow [(1, 2)] 1 2 "hi").2.1
      (by decide) (by decide),
   (direct_message_requires_mutual_follow [(1, 2), (2, 1)] 1 2 "hi").1.mpr
      (by decide)⟩

/-- C8: a decision created without touching the privacy selector is sent at
the most permissive level — the current `HomePage` submits
`privacy_level = "public"` (its selector's initial state), and the legacy
`HomePage` unconditionally submits `is_public = true`. -/
theorem default_privacy_is_public
    (text : String) (htext : jsTrim text ≠ "") :
    handleSubmitRequest text initialPrivacyLevel
      = some { text := text, privacy_level := "public" } ∧
    legacyHandleSubmitRequest text
      = some { text := text, is_public := true } := by
  constructor
  · simp [handleSubmitRequest, initialPrivacyLevel, htext]
  · simp [legacyHandleSubmitRequest, htext]

/-- Witness for C8 at a concrete non-blank decision text. -/
theorem default_privacy_is_public_witness :
    handleSubmitRequest "Pizza or sushi?" initialPrivacyLevel
      = some { text := "Pizza or sushi?", privacy_level := "public" } ∧
    legacyHandleSubmitRequest "Pizza or sushi?"
      = some { text := "Pizza or sushi?", is_public := true } :=
  default_privacy_is_public "Pizza or sushi?" (by decide)

/-- C9: the frontend never issues a decision-creation request with
whitespace-only text — for every input whose trimmed form is empty, both
`handleSubmit` variants perform no API call and the submit button is
disabled. -/
theorem no_blank_create_request
    (text pl : String) (loading : Bool) (htext : jsTrim text = "") :
    handleSubmitRequest text pl = none ∧
    legacyHandleSubmitRequest text = none ∧
    submitButtonDisabled text loading = true := by
  refine ⟨?_, ?_, ?_⟩
  · simp [handleSubmitRequest, htext]
  · simp [legacyHandleSubmitRequest, htext]
  · simp [submitButtonDisabled, htext]

/-- Witness for C9 at a whitespace-only input. -/
theorem no_blank_create_request_witness :
    handleSubmitRequest "   " "public" = none ∧
    legacyHandleSubmitRequest "   " = none ∧
    submitButtonDisabled "   " false = true :=
  no_blank_create_request "   " "public" false (by decide)

/-- C10: every intermediate dice value shown by the roll animation is an
integer in {1, 2, 3, 4}, whatever the decision's alternatives are — the
animation tick `Math.floor(Math.random() * 4) + 1` never consults them. -/
theorem animation_dice_in_range
    (r : ℚ) (h0 : 0 ≤ r) (h1 : r < 1) :
    1 ≤ animationDiceNumber r ∧ animationDiceNumber r ≤ 4 := by
  unfold animationDiceNumber
  constructor
  · have : (0 : ℤ) ≤ ⌊r * 4⌋ := Int.floor_nonneg.mpr (by positivity)
    omega
  · have : ⌊r * 4⌋ < 4 := by
      rw [Int.floor_lt]
      push_cast
      linarith
    omega

/-- Witness for C10 at the animation draw r = 1/2 (dice face 3). -/
theorem animation_dice_in_range_witness :
    1 ≤ animationDiceNumber (1 / 2) ∧ animationDiceNumber (1 / 2) ≤ 4 :=
  animation_dice_in_range (1 / 2) (by norm_num) (by norm_num)

end Zaradam
